import Mathlib

/-!
Verification of the ACEest fitness service core (src/app.py): the persistent
workout ledger (load/save with atomic replace), the metrics engine
(calories / BMI / BMR), the append operation `log_workout`, the aggregation
views `summary` / `progress`, and the PDF report pagination decision in
`export_pdf`.  Python dicts are embedded as insertion-ordered association
lists, machine floats as exact rationals, and the backing JSON files as an
explicit `FileState`.
-/

set_option autoImplicit false

namespace Aceest

/-- One logged workout session, as built by `log_workout` in src/app.py
(lines 244-250).  `calories` is optional because older documents on disk may
lack the key; `summary` / `progress` read it with `e.get('calories', 0)`. -/
structure Entry where
  exercise : String
  duration : ℤ
  calories : Option ℚ
  timestamp : String
  date : String
  deriving Repr, DecidableEq

/-- The workout ledger: a Python dict mapping category name to a list of
entries, embedded as an insertion-ordered association list (Python dicts
preserve insertion order). -/
abbrev Ledger : Type := List (String × List Entry)

/-- Dict key lookup (`data[k]` / `k in data`). -/
def Ledger.find? (d : Ledger) (k : String) : Option (List Entry) :=
  (List.lookup k d)

/-- Python `k in data`. -/
def Ledger.containsKey (d : Ledger) (k : String) : Bool :=
  (d.find? k).isSome

/-- Python `data.setdefault(k, [])`: insert `k ↦ []` at the end iff `k` is
not already a key. -/
def Ledger.setdefaultEmpty (d : Ledger) (k : String) : Ledger :=
  if d.containsKey k then d else d ++ [(k, [])]

/-- Python `data[k].append(e)`: append `e` to the bucket of key `k`
(no-op when the key is absent; `log_workout` only calls it after the
`category in data` check). -/
def Ledger.appendEntry (d : Ledger) (k : String) (e : Entry) : Ledger :=
  d.map (fun kv => if kv.1 = k then (kv.1, kv.2 ++ [e]) else kv)

/-- Total number of entries across all buckets. -/
def Ledger.countEntries (d : Ledger) : ℕ :=
  (d.map (fun kv => kv.2.length)).sum

/-- DEFAULT_DATA from src/app.py line 29. -/
def DEFAULT_DATA : Ledger :=
  [("Warm-up", []), ("Workout", []), ("Cool-down", [])]

/-- State of one backing JSON file as seen by a loader: absent, present but
not parseable (malformed serialization), or a parsed document. -/
inductive FileState (α : Type) where
  | absent
  | corrupt
  | valid (doc : α)
  deriving Repr, DecidableEq

/-- load_data (src/app.py lines 48-61): missing file or JSON/OS error yields
a copy of DEFAULT_DATA; a parsed document is normalized by
`data.setdefault(k, [])` for every DEFAULT_DATA key.  The function is total:
no exception reaches the caller. -/
def load_data : FileState Ledger → Ledger
  | .absent => DEFAULT_DATA
  | .corrupt => DEFAULT_DATA
  | .valid d =>
      ((d.setdefaultEmpty "Warm-up").setdefaultEmpty "Workout").setdefaultEmpty "Cool-down"

/-- The loaded user-info dict: every key is optional, the empty dict (all
fields `none`) is DEFAULT_USER_INFO. -/
structure UserInfo where
  name : Option String := none
  regn_id : Option String := none
  age : Option ℤ := none
  gender : Option String := none
  height : Option ℚ := none
  weight : Option ℚ := none
  bmi : Option ℚ := none
  bmr : Option ℚ := none
  weekly_cal_goal : Option ℤ := none
  deriving Repr, DecidableEq

/-- DEFAULT_USER_INFO = {} (src/app.py line 30). -/
def DEFAULT_USER_INFO : UserInfo := {}

/-- Python truthiness of the user dict (`if user:`): the dict written by
`user_save` is nonempty iff some field is present. -/
def UserInfo.nonempty (u : UserInfo) : Bool :=
  u.name.isSome || u.regn_id.isSome || u.age.isSome || u.gender.isSome ||
  u.height.isSome || u.weight.isSome || u.bmi.isSome || u.bmr.isSome ||
  u.weekly_cal_goal.isSome

/-- load_user_info (src/app.py lines 64-74): absent or corrupt file yields
the empty dict. -/
def load_user_info : FileState UserInfo → UserInfo
  | .absent => DEFAULT_USER_INFO
  | .corrupt => DEFAULT_USER_INFO
  | .valid u => u

/-- MET_VALUES (src/app.py lines 34-38). -/
def MET_VALUES : List (String × ℚ) :=
  [("Warm-up", 3), ("Workout", 6), ("Cool-down", 5/2)]

/-- `MET_VALUES.get(category, 5.0)`. -/
def metOf (category : String) : ℚ :=
  (List.lookup category MET_VALUES).getD 5

/-- _calc_calories (src/app.py lines 197-200): pure function of its
arguments; `user.get('weight', 70)` defaults the weight. -/
def calc_calories (category : String) (duration : ℤ) (user : UserInfo) : ℚ :=
  let weight := user.weight.getD 70
  let met := metOf category
  (met * (7/2) * weight / 200) * duration

/-- On-disk state of one document: the canonical file and its `.tmp`
sibling (`tmp = .absent` means no temp file exists). -/
structure DiskState (α : Type) where
  canonical : FileState α
  tmp : FileState α
  deriving Repr, DecidableEq

/-- Which I/O operations inside one save call raise OSError, and what the
temp file holds after a failed write (`open`/`json.dump` may fail before
creating the file, or after writing part of it). -/
structure IOFaults (α : Type) where
  writeFails : Bool
  tmpAfterFailedWrite : FileState α
  replaceFails : Bool
  removeFails : Bool
  deriving Repr, DecidableEq

/-- No faults: every I/O operation succeeds. -/
def IOFaults.none (α : Type) : IOFaults α :=
  ⟨false, .absent, false, false⟩

/-- Cleanup branch of save_data / save_user_info (src/app.py lines 91-95 and
110-114): `if os.path.exists(tmp): os.remove(tmp)`, with an OSError from the
removal itself swallowed by `pass`. -/
def cleanupTmp {α : Type} (fs : DiskState α) (io : IOFaults α) : DiskState α :=
  match fs.tmp with
  | .absent => fs
  | _ => if io.removeFails then fs else { fs with tmp := .absent }

/-- save_data (src/app.py lines 77-96) and save_user_info (lines 99-115) are
textual twins; both are this function at their document type.  Steps: write
the serialized document to the `.tmp` sibling, `os.replace` it onto the
canonical path, return `true`; on OSError return `false` after attempting to
remove the temp file.  The function is total: no exception reaches the
caller. -/
def atomicSave {α : Type} (doc : α) (fs : DiskState α) (io : IOFaults α) :
    Bool × DiskState α :=
  if io.writeFails then
    (false, cleanupTmp { fs with tmp := io.tmpAfterFailedWrite } io)
  else
    let fs1 : DiskState α := { fs with tmp := .valid doc }
    if io.replaceFails then
      (false, cleanupTmp fs1 io)
    else
      (true, { canonical := .valid doc, tmp := .absent })

/-- save_data = atomicSave at the workout-ledger document type. -/
def save_data : Ledger → DiskState Ledger → IOFaults Ledger → Bool × DiskState Ledger :=
  atomicSave

/-- save_user_info = atomicSave at the user-info document type. -/
def save_user_info : UserInfo → DiskState UserInfo → IOFaults UserInfo → Bool × DiskState UserInfo :=
  atomicSave

/-- The disk state of a save that crashed after the temp file was fully
written but before `os.replace` ran. -/
def saveCrashedAfterWrite {α : Type} (doc : α) (fs : DiskState α) : DiskState α :=
  { fs with tmp := .valid doc }

/-- Code points stripped by Python `str.strip()` (characters whose
`str.isspace()` is true): ASCII whitespace, the 0x1c-0x1f separators, and
the Unicode space characters. -/
def pySpaceCodes : List ℕ :=
  [0x09, 0x0a, 0x0b, 0x0c, 0x0d, 0x1c, 0x1d, 0x1e, 0x1f, 0x20,
   0x85, 0xa0, 0x1680, 0x2028, 0x2029, 0x202f, 0x205f, 0x3000]
  ++ (List.range 11).map (0x2000 + ·)

/-- Python `str.isspace` on one character. -/
def pyIsSpace (c : Char) : Bool :=
  pySpaceCodes.contains c.toNat

/-- Python `s.strip()`: drop leading and trailing whitespace. -/
def pyStrip (s : String) : String :=
  ⟨((s.toList.dropWhile pyIsSpace).reverse.dropWhile pyIsSpace).reverse⟩

/-- The character class of `re.sub(r'[\x00-\x1f\x7f]', '', s)`:
ASCII control characters. -/
def isCtlChar (c : Char) : Bool :=
  c.toNat ≤ 0x1f || c.toNat == 0x7f

/-- The `cleaner` lambda of _validate_user_form (src/app.py line 150):
strip, then delete every ASCII control character. -/
def cleaner (s : String) : String :=
  ⟨(pyStrip s).toList.filter (fun c => !isCtlChar c)⟩

/-- Python `str.upper()`, modelled by the ASCII case map (no gender code
reaching the M/F membership test is affected by the difference on
non-ASCII letters). -/
def pyUpper (s : String) : String :=
  ⟨s.data.map Char.toUpper⟩

/-- Value of a digit string (helper for int/float parsing). -/
def digitsVal (cs : List Char) : ℕ :=
  cs.foldl (fun n c => 10 * n + (c.toNat - 48)) 0

/-- Unsigned part of Python `int(s)`: a nonempty run of digits. -/
def parseDigits? (cs : List Char) : Option ℕ :=
  if cs ≠ [] ∧ cs.all Char.isDigit then some (digitsVal cs) else Option.none

/-- Python `int(s)` on an already-stripped string: optional sign, digits.
A ValueError is `Option.none`. -/
def pyParseInt (s : String) : Option ℤ :=
  match s.toList with
  | '+' :: rest => (parseDigits? rest).map (fun n => (n : ℤ))
  | '-' :: rest => (parseDigits? rest).map (fun n => -(n : ℤ))
  | cs => (parseDigits? cs).map (fun n => (n : ℤ))

/-- Unsigned part of Python `float(s)` for plain decimal notation:
`digits`, `digits.`, `digits.digits` or `.digits`.  (The exponent and
inf/nan forms `float` also accepts are outside the inputs this model is
used on.) -/
def parseDecimal? (cs : List Char) : Option ℚ :=
  if cs.contains '.' then
    let intPart := cs.takeWhile (fun c => c ≠ '.')
    let fracPart := (cs.dropWhile (fun c => c ≠ '.')).tail
    if fracPart.contains '.' then Option.none
    else if intPart = [] ∧ fracPart = [] then Option.none
    else if intPart.all Char.isDigit ∧ fracPart.all Char.isDigit then
      some ((digitsVal intPart : ℚ) + (digitsVal fracPart : ℚ) / 10 ^ fracPart.length)
    else Option.none
  else (parseDigits? cs).map (fun n => (n : ℚ))

/-- Python `float(s)` on an already-stripped string (plain decimal forms). -/
def pyParseFloat (s : String) : Option ℚ :=
  match s.toList with
  | '+' :: rest => parseDecimal? rest
  | '-' :: rest => (parseDecimal? rest).map Neg.neg
  | cs => parseDecimal? cs

/-- Raw `request.form` fields of the user form (`form.get(k, '')` reads a
missing key as the empty string). -/
structure UserForm where
  name : Option String := Option.none
  regn_id : Option String := Option.none
  age : Option String := Option.none
  gender : Option String := Option.none
  height : Option String := Option.none
  weight : Option String := Option.none

/-- The cleaned-data dict returned by a successful _validate_user_form. -/
structure CleanedUser where
  name : String
  regn_id : String
  age : ℤ
  gender : String
  height : ℚ
  weight : ℚ
  bmi : ℚ
  bmr : ℚ
  weekly_cal_goal : ℤ
  deriving Repr, DecidableEq

/-- The try/except block of _validate_user_form (src/app.py lines 157-171):
parse age, height, weight in that order; range errors accumulate as they
are found, and the first parse failure appends its message and resets all
three numbers to zero. -/
def numericFields (age_str height_str weight_str : String) :
    List String × ℤ × ℚ × ℚ :=
  match pyParseInt age_str with
  | Option.none => (["Numeric field parsing failed."], 0, 0, 0)
  | some a =>
    let e1 := if ¬(1 ≤ a ∧ a ≤ 120) then ["Age out of range (1-120)."] else []
    match pyParseFloat height_str with
    | Option.none => (e1 ++ ["Numeric field parsing failed."], 0, 0, 0)
    | some h =>
      let e2 := if ¬(50 ≤ h ∧ h ≤ 250) then ["Height out of range (50-250 cm)."] else []
      match pyParseFloat weight_str with
      | Option.none => (e1 ++ e2 ++ ["Numeric field parsing failed."], 0, 0, 0)
      | some w =>
        let e3 := if ¬(20 ≤ w ∧ w ≤ 400) then ["Weight out of range (20-400 kg)."] else []
        (e1 ++ e2 ++ e3, a, h, w)

/-- _validate_user_form (src/app.py lines 146-195).  Returns the error list
and the cleaned-data dict; the source returns the empty dict `{}` on any
error, embedded as `Option.none`. -/
def validate_user_form (form : UserForm) : List String × Option CleanedUser :=
  let name := cleaner (form.name.getD "")
  let regn_id := cleaner (form.regn_id.getD "")
  let age_str := pyStrip (form.age.getD "")
  let gender := pyUpper (cleaner (form.gender.getD ""))
  let height_str := pyStrip (form.height.getD "")
  let weight_str := pyStrip (form.weight.getD "")
  let nums := numericFields age_str height_str weight_str
  let errors := nums.1
    ++ (if gender ≠ "M" ∧ gender ≠ "F" then ["Gender must be M or F."] else [])
    ++ (if name.length > 100 then ["Name too long (>100)."] else [])
    ++ (if regn_id.length > 50 then ["Regn-ID too long (>50)."] else [])
  if errors ≠ [] then (errors, Option.none)
  else
    let age := nums.2.1
    let height_cm := nums.2.2.1
    let weight_kg := nums.2.2.2
    let bmi := weight_kg / ((height_cm / 100) ^ 2)
    let bmr :=
      if gender = "M" then 10 * weight_kg + (25/4) * height_cm - 5 * age + 5
      else 10 * weight_kg + (25/4) * height_cm - 5 * age - 161
    (errors, some ⟨name, regn_id, age, gender, height_cm, weight_kg, bmi, bmr, 2000⟩)

/-- Backing-document I/O operations a request handler can perform, in the
order it performs them. -/
inductive LogAction where
  | loadData
  | loadUser
  | saveData
  deriving Repr, DecidableEq

/-- Outcome of one `log_workout` request (the flash message / redirect the
route produces). -/
inductive LogResult where
  | errMissingFields
  | errBadDuration
  | errInvalidCategory
  | errSaveFailed
  | ok (category : String) (e : Entry)
  deriving Repr, DecidableEq

/-- Raw `request.form` fields of the log form. -/
structure LogForm where
  category : Option String := Option.none
  exercise : Option String := Option.none
  duration : Option String := Option.none

/-- log_workout (src/app.py lines 224-257).  `load_data` and
`load_user_info` run first, before any validation; DATA_LOCK is then held
only around the append and the save.  `now` and `today` stand for
`datetime.now()` / `date.today()`; `io` is the fault schedule of the save.
Returns the result, the final data-file disk state, and the trace of
backing-document operations performed. -/
def log_workout (form : LogForm) (dataFS : DiskState Ledger)
    (userFS : FileState UserInfo) (io : IOFaults Ledger)
    (now today : String) : LogResult × DiskState Ledger × List LogAction :=
  let data := load_data dataFS.canonical
  let user := load_user_info userFS
  let category := form.category.getD "Workout"
  let exercise := pyStrip (form.exercise.getD "")
  let duration_str := pyStrip (form.duration.getD "")
  if exercise = "" ∨ duration_str = "" then
    (.errMissingFields, dataFS, [.loadData, .loadUser])
  else
    match pyParseInt duration_str with
    | Option.none => (.errBadDuration, dataFS, [.loadData, .loadUser])
    | some duration =>
      if duration ≤ 0 then
        (.errBadDuration, dataFS, [.loadData, .loadUser])
      else if ¬ data.containsKey category then
        (.errInvalidCategory, dataFS, [.loadData, .loadUser])
      else
        let calories := calc_calories category duration user
        let entry : Entry := ⟨exercise, duration, some calories, now, today⟩
        let data2 := data.appendEntry category entry
        let res := save_data data2 dataFS io
        if res.1 then (.ok category entry, res.2, [.loadData, .loadUser, .saveData])
        else (.errSaveFailed, res.2, [.loadData, .loadUser, .saveData])

/-- Program counter of one append request in the two-thread model of
concurrent `log_workout` calls: the request has not yet run `load_data`,
has loaded its private copy, or has committed (append + save under
DATA_LOCK). -/
inductive ThreadPC where
  | ready
  | loaded (localCopy : Ledger)
  | finished
  deriving Repr, DecidableEq

/-- Shared data file plus the program counters of two concurrent append
requests. -/
structure ConcState where
  file : FileState Ledger
  t1 : ThreadPC
  t2 : ThreadPC
  deriving Repr, DecidableEq

/-- One scheduler-chosen step of an append request for entry `e` in
category `cat`.  The load step (src/app.py line 225) runs outside
DATA_LOCK; the commit step is the `with DATA_LOCK:` block (lines 251-253,
append to the private copy then save), atomic because the lock serializes
it, with a fault-free save. -/
def threadStep (cat : String) (e : Entry) (file : FileState Ledger) :
    ThreadPC → ThreadPC × FileState Ledger
  | .ready => (.loaded (load_data file), file)
  | .loaded d =>
      let d2 := d.appendEntry cat e
      (.finished, ((atomicSave d2 ⟨file, .absent⟩ (IOFaults.none _)).2).canonical)
  | .finished => (.finished, file)

/-- Run an interleaving: `false` steps thread 1 (appending `e1`), `true`
steps thread 2 (appending `e2`). -/
def runSchedule (cat : String) (e1 e2 : Entry) :
    List Bool → ConcState → ConcState
  | [], s => s
  | tid :: rest, s =>
    if tid then
      let r := threadStep cat e2 s.file s.t2
      runSchedule cat e1 e2 rest { s with t2 := r.1, file := r.2 }
    else
      let r := threadStep cat e1 s.file s.t1
      runSchedule cat e1 e2 rest { s with t1 := r.1, file := r.2 }

/-- Flat list of all entries in ledger iteration order. -/
def allEntries (data : Ledger) : List Entry :=
  (data.map Prod.snd).flatten

/-- `total_time` of summary (src/app.py line 261). -/
def summary_total_time (data : Ledger) : ℤ :=
  ((data.map Prod.snd).flatten.map Entry.duration).sum

/-- `total_calories` of summary (src/app.py line 262): `e.get('calories', 0)`
reads a missing key as 0. -/
def summary_total_calories (data : Ledger) : ℚ :=
  ((data.map Prod.snd).flatten.map (fun e => e.calories.getD 0)).sum

/-- `totals` of progress (src/app.py line 308): per-category duration sums. -/
def progress_totals (data : Ledger) : List (String × ℤ) :=
  data.map (fun kv => (kv.1, (kv.2.map Entry.duration).sum))

/-- `total_minutes` of progress (src/app.py line 309). -/
def progress_total_minutes (data : Ledger) : ℤ :=
  ((progress_totals data).map Prod.snd).sum

/-- `total_calories` of progress (src/app.py line 310). -/
def progress_total_calories (data : Ledger) : ℚ :=
  ((data.map Prod.snd).flatten.map (fun e => e.calories.getD 0)).sum

/-- Height of an A4 page in points (29.7 cm at 72/2.54 points per cm),
exactly. -/
def A4_height : ℚ := 106920 / 127

/-- Number of user-info lines drawn by export_pdf (src/app.py lines
357-364): one when the user dict is nonempty, a second when both height and
weight are present. -/
def pdf_user_lines (user : UserInfo) : ℕ :=
  if user.nonempty then
    if user.height.isSome ∧ user.weight.isSome then 2 else 1
  else 0

/-- `len(table_data)` in export_pdf: one header row plus one row per ledger
entry. -/
def pdf_num_table_rows (data : Ledger) : ℕ :=
  1 + data.countEntries

/-- Placement computed by export_pdf for the single table block. -/
structure PdfLayout where
  continuation : Bool
  continuedHeader : Option String
  tableTop : ℚ
  tableBottom : ℚ
  estTableHeight : ℚ
  deriving Repr, DecidableEq

/-- The pagination decision of export_pdf (src/app.py lines 365-398): compute
the cursor after title and user lines, estimate the table height, and place
the whole table either on the start page or, after one page break with a
continued header and a reset cursor, on a continuation page. -/
def export_pdf_layout (user : UserInfo) (data : Ledger) : PdfLayout :=
  let height := A4_height
  let base_y := height - 80
  let line_gap : ℚ := 16
  let y0 := base_y - (pdf_user_lines user : ℚ) * line_gap - 40
  let est_row_height : ℚ := 18
  let est_table_height := est_row_height * (pdf_num_table_rows data : ℚ)
  let bottom_margin : ℚ := 60
  let available_height := y0 - bottom_margin
  if est_table_height > available_height then
    { continuation := true,
      continuedHeader := some "Workout Session Details (Continued)",
      tableTop := height - 90,
      tableBottom := height - 90 - est_table_height,
      estTableHeight := est_table_height }
  else
    { continuation := false,
      continuedHeader := Option.none,
      tableTop := y0,
      tableBottom := y0 - est_table_height,
      estTableHeight := est_table_height }

section LookupLemmas

variable {β : Type}

lemma lookup_append_left (k : String) (l1 l2 : List (String × β)) (v : β)
    (h : List.lookup k l1 = some v) : List.lookup k (l1 ++ l2) = some v := by
  induction l1 with
  | nil => simp [List.lookup] at h
  | cons p rest ih =>
      cases p with
      | mk a b =>
          simp only [List.cons_append, List.lookup]
          simp only [List.lookup] at h
          cases hkb : (k == a) with
          | true => simpa [hkb] using h
          | false =>
              simp only [hkb] at h ⊢
              exact ih h

lemma lookup_append_right (k : String) (l1 l2 : List (String × β))
    (h : List.lookup k l1 = Option.none) :
    List.lookup k (l1 ++ l2) = List.lookup k l2 := by
  induction l1 with
  | nil => simp
  | cons p rest ih =>
      cases p with
      | mk a b =>
          simp only [List.cons_append, List.lookup]
          simp only [List.lookup] at h
          cases hkb : (k == a) with
          | true => simp [hkb] at h
          | false =>
              simp only [hkb] at h ⊢
              exact ih h

end LookupLemmas

lemma containsKey_iff_find? (d : Ledger) (k : String) :
    d.containsKey k = true ↔ ∃ v, d.find? k = some v := by
  unfold Ledger.containsKey
  cases h : d.find? k <;> simp [Option.isSome, h]

lemma setdefaultEmpty_of_contains (d : Ledger) (k : String)
    (hc : d.containsKey k = true) : d.setdefaultEmpty k = d := by
  unfold Ledger.setdefaultEmpty
  rw [hc]
  simp

lemma setdefaultEmpty_of_not_contains (d : Ledger) (k : String)
    (hc : d.containsKey k = false) : d.setdefaultEmpty k = d ++ [(k, [])] := by
  unfold Ledger.setdefaultEmpty
  rw [hc]
  simp

lemma not_containsKey_find? (d : Ledger) (k : String)
    (h : d.find? k = Option.none) : d.containsKey k = false := by
  unfold Ledger.containsKey
  simp [h]

lemma find?_setdefaultEmpty_self (d : Ledger) (k : String) :
    ∃ v, (d.setdefaultEmpty k).find? k = some v := by
  by_cases hc : d.containsKey k = true
  · rw [setdefaultEmpty_of_contains d k hc]
    exact (containsKey_iff_find? d k).mp hc
  · have hnone : d.find? k = Option.none := by
      unfold Ledger.containsKey at hc
      cases h : d.find? k
      · rfl
      · exact absurd (by simp [Option.isSome, h]) hc
    rw [setdefaultEmpty_of_not_contains d k (not_containsKey_find? d k hnone)]
    refine ⟨[], ?_⟩
    unfold Ledger.find? at hnone ⊢
    rw [lookup_append_right k d _ hnone]
    simp [List.lookup]

lemma find?_setdefaultEmpty_of_ne (d : Ledger) (k k' : String) (h : k' ≠ k) :
    (d.setdefaultEmpty k).find? k' = d.find? k' := by
  by_cases hc : d.containsKey k = true
  · rw [setdefaultEmpty_of_contains d k hc]
  · rw [setdefaultEmpty_of_not_contains d k (by simpa using hc)]
    unfold Ledger.find?
    cases hv : List.lookup k' d with
    | some v => exact lookup_append_left k' d _ v hv
    | none =>
        rw [lookup_append_right k' d _ hv]
        have hb : (k' == k) = false := by simp [h]
        simp [List.lookup, hb]

lemma find?_setdefaultEmpty_of_none (d : Ledger) (k : String)
    (h : d.find? k = Option.none) :
    (d.setdefaultEmpty k).find? k = some [] := by
  rw [setdefaultEmpty_of_not_contains d k (not_containsKey_find? d k h)]
  unfold Ledger.find? at h ⊢
  rw [lookup_append_right k d _ h]
  simp [List.lookup]

lemma containsKey_setdefaultEmpty_self (d : Ledger) (k : String) :
    (d.setdefaultEmpty k).containsKey k = true := by
  rcases find?_setdefaultEmpty_self d k with ⟨v, hv⟩
  exact (containsKey_iff_find? _ k).mpr ⟨v, hv⟩

lemma containsKey_setdefaultEmpty_mono (d : Ledger) (k k' : String)
    (h : d.containsKey k' = true) :
    (d.setdefaultEmpty k).containsKey k' = true := by
  by_cases hne : k' = k
  · subst hne
    exact containsKey_setdefaultEmpty_self d k'
  · rw [containsKey_iff_find?] at h ⊢
    rwa [find?_setdefaultEmpty_of_ne d k k' hne]

/-- C4: for every backing-file state, `load_data` is total (no exception
reaches the caller, by construction) and returns a ledger containing every
recognized category key; an absent or corrupt file yields the default empty
ledger, and a loaded document lacking a default category gets that key
inserted with an empty list. -/
theorem load_data_recovers_and_normalizes (fs : FileState Ledger) :
    ((load_data fs).containsKey "Warm-up" = true
      ∧ (load_data fs).containsKey "Workout" = true
      ∧ (load_data fs).containsKey "Cool-down" = true)
    ∧ load_data FileState.absent = DEFAULT_DATA
    ∧ load_data FileState.corrupt = DEFAULT_DATA
    ∧ (∀ d : Ledger, ∀ k : String,
        (k = "Warm-up" ∨ k = "Workout" ∨ k = "Cool-down") →
        d.find? k = Option.none →
        (load_data (FileState.valid d)).find? k = some []) := by
  refine ⟨?_, rfl, rfl, ?_⟩
  · cases fs with
    | absent => refine ⟨by decide, by decide, by decide⟩
    | corrupt => refine ⟨by decide, by decide, by decide⟩
    | valid d =>
        unfold load_data
        refine ⟨?_, ?_, ?_⟩
        · exact containsKey_setdefaultEmpty_mono _ _ _
            (containsKey_setdefaultEmpty_mono _ _ _
              (containsKey_setdefaultEmpty_self d "Warm-up"))
        · exact containsKey_setdefaultEmpty_mono _ _ _
            (containsKey_setdefaultEmpty_self _ "Workout")
        · exact containsKey_setdefaultEmpty_self _ "Cool-down"
  · intro d k hk hnone
    unfold load_data
    rcases hk with h | h | h <;> subst h
    · rw [find?_setdefaultEmpty_of_ne _ _ _ (by decide),
          find?_setdefaultEmpty_of_ne _ _ _ (by decide)]
      exact find?_setdefaultEmpty_of_none d _ hnone
    · rw [find?_setdefaultEmpty_of_ne _ _ _ (by decide)]
      refine find?_setdefaultEmpty_of_none _ _ ?_
      rwa [find?_setdefaultEmpty_of_ne _ _ _ (by decide)]
    · refine find?_setdefaultEmpty_of_none _ _ ?_
      rw [find?_setdefaultEmpty_of_ne _ _ _ (by decide),
          find?_setdefaultEmpty_of_ne _ _ _ (by decide)]
      exact hnone

/-- Witness for C4 at a concrete document missing the Warm-up key. -/
theorem load_data_recovers_and_normalizes_witness :
    Ledger.find? [("Workout", [])] "Warm-up" = Option.none
    ∧ Ledger.find? (load_data (FileState.valid [("Workout", [])])) "Warm-up" = some [] :=
  ⟨by decide,
   (load_data_recovers_and_normalizes (FileState.valid [("Workout", [])])).2.2.2
     [("Workout", [])] "Warm-up" (Or.inl rfl) (by decide)⟩

/-- C6: the calorie computation is the pure function
MET(category) * 3.5 * weight / 200 * duration with MET 3.0 / 6.0 / 2.5 for
the known categories, 5.0 otherwise, and weight defaulting to 70 when the
profile has no weight; calories("Workout", 10 min, 80 kg) = 84 exactly.
Determinism on identical inputs is purity of the Lean function. -/
theorem calc_calories_formula (category : String) (duration : ℤ) (user : UserInfo) :
    calc_calories category duration user
      = metOf category * (7/2) * (user.weight.getD 70) / 200 * duration
    ∧ metOf category
      = (if category = "Warm-up" then 3
         else if category = "Workout" then 6
         else if category = "Cool-down" then 5/2 else 5)
    ∧ calc_calories "Workout" 10 { DEFAULT_USER_INFO with weight := some 80 } = 84
    ∧ calc_calories category duration DEFAULT_USER_INFO
      = metOf category * (7/2) * 70 / 200 * duration := by
  have hm : metOf "Workout" = 6 := by simp [metOf, MET_VALUES, List.lookup]
  refine ⟨rfl, ?_, by norm_num [calc_calories, hm], rfl⟩
  unfold metOf MET_VALUES
  by_cases h1 : category = "Warm-up"
  · have b1 : (category == "Warm-up") = true := by simp [h1]
    simp [List.lookup, b1, h1]
  · have b1 : (category == "Warm-up") = false := by simp [h1]
    by_cases h2 : category = "Workout"
    · have b2 : (category == "Workout") = true := by simp [h2]
      simp [List.lookup, b1, b2, h1, h2]
    · have b2 : (category == "Workout") = false := by simp [h2]
      by_cases h3 : category = "Cool-down"
      · have b3 : (category == "Cool-down") = true := by simp [h3]
        simp [List.lookup, b1, b2, b3, h1, h2, h3]
      · have b3 : (category == "Cool-down") = false := by simp [h3]
        simp [List.lookup, b1, b2, b3, h1, h2, h3]

/-- C10: the summary and progress aggregations both total the durations of
all entries across all categories (in particular the per-category sums of
`progress` add up to the flat sum `summary` computes), and both calorie
totals read a missing calories key as 0 via `e.get('calories', 0)`.  In
this embedding every entry carries a duration, matching the claim's
premise. -/
theorem aggregation_totals (data : Ledger) :
    summary_total_time data = ((allEntries data).map Entry.duration).sum
    ∧ progress_total_minutes data = ((allEntries data).map Entry.duration).sum
    ∧ summary_total_calories data
      = ((allEntries data).map (fun e =>
          match e.calories with
          | Option.none => (0 : ℚ)
          | some c => c)).sum
    ∧ progress_total_calories data = summary_total_calories data := by
  have hget : (fun e : Entry => e.calories.getD 0)
      = (fun e : Entry =>
          match e.calories with
          | Option.none => (0 : ℚ)
          | some c => c) := by
    funext e
    cases e.calories <;> rfl
  refine ⟨rfl, ?_, ?_, rfl⟩
  · unfold progress_total_minutes progress_totals allEntries
    simp only [List.map_flatten, List.sum_flatten, List.map_map]
    congr 1
  · unfold summary_total_calories allEntries
    rw [hget]

lemma cleanupTmp_canonical {α : Type} (fs : DiskState α) (io : IOFaults α) :
    (cleanupTmp fs io).canonical = fs.canonical := by
  unfold cleanupTmp
  cases hfs : fs.tmp <;> simp only [hfs] <;> split_ifs <;> rfl

lemma cleanupTmp_tmp_of_remove_ok {α : Type} (fs : DiskState α) (io : IOFaults α)
    (h : io.removeFails = false) : (cleanupTmp fs io).tmp = FileState.absent := by
  unfold cleanupTmp
  cases hfs : fs.tmp <;> simp [hfs, h]

/-- C3 (amended): a save failure leaves the canonical document unchanged and
returns false (never an exception: the function is total); success replaces
the canonical document atomically and leaves no temp file; after any failure
the temp-file removal is attempted, so the temp file is gone whenever the
removal itself succeeds; and a save that crashes after writing the temp file
but before the rename leaves the canonical document - hence any later load -
exactly as before.  `save_data` and `save_user_info` are both `atomicSave`
at their document type. -/
theorem atomicSave_contract {α : Type} (doc : α) (fs : DiskState α) (io : IOFaults α) :
    ((atomicSave doc fs io).1 = false →
      (atomicSave doc fs io).2.canonical = fs.canonical)
    ∧ ((atomicSave doc fs io).1 = true →
      (atomicSave doc fs io).2 = ⟨FileState.valid doc, FileState.absent⟩)
    ∧ ((atomicSave doc fs io).1 = false ↔ (io.writeFails = true ∨ io.replaceFails = true))
    ∧ ((atomicSave doc fs io).1 = false → io.removeFails = false →
      (atomicSave doc fs io).2.tmp = FileState.absent)
    ∧ (saveCrashedAfterWrite doc fs).canonical = fs.canonical := by
  unfold atomicSave
  cases hw : io.writeFails with
  | true =>
      simp only [if_true]
      refine ⟨fun _ => cleanupTmp_canonical _ _, by simp, by simp [hw], ?_, rfl⟩
      intro _ hr
      exact cleanupTmp_tmp_of_remove_ok _ _ hr
  | false =>
      cases hrep : io.replaceFails with
      | true =>
          simp only [if_false, if_true, Bool.false_eq_true]
          refine ⟨fun _ => cleanupTmp_canonical _ _, by simp, by simp [hw, hrep], ?_, rfl⟩
          intro _ hr
          exact cleanupTmp_tmp_of_remove_ok _ _ hr
      | false =>
          refine ⟨?_, ?_, ?_, ?_, rfl⟩ <;> simp [hw, hrep]

/-- Witness for C3 at a concrete failed save: `os.replace` raises, the
removal succeeds, the canonical file keeps its prior document and no temp
file remains. -/
theorem atomicSave_contract_witness :
    (save_data DEFAULT_DATA ⟨FileState.valid [], FileState.absent⟩
        ⟨false, FileState.absent, true, false⟩).1 = false
    ∧ (save_data DEFAULT_DATA ⟨FileState.valid [], FileState.absent⟩
        ⟨false, FileState.absent, true, false⟩).2.canonical = FileState.valid []
    ∧ (save_data DEFAULT_DATA ⟨FileState.valid [], FileState.absent⟩
        ⟨false, FileState.absent, true, false⟩).2.tmp = FileState.absent :=
  ⟨rfl,
   (atomicSave_contract DEFAULT_DATA ⟨FileState.valid [], FileState.absent⟩
      ⟨false, FileState.absent, true, false⟩).1 rfl,
   (atomicSave_contract DEFAULT_DATA ⟨FileState.valid [], FileState.absent⟩
      ⟨false, FileState.absent, true, false⟩).2.2.2.1 rfl rfl⟩

/-- Counterexample to C3 as stated: when `os.replace` raises and the cleanup
`os.remove` also raises (both OSErrors, swallowed by the source), the save
returns false but the fully written temp file is left on disk, so "on any
I/O failure the temporary file is removed if it exists" fails. -/
theorem save_data_tmp_left_behind :
    (save_data DEFAULT_DATA ⟨FileState.valid [], FileState.absent⟩
        ⟨false, FileState.absent, true, true⟩).1 = false
    ∧ (save_data DEFAULT_DATA ⟨FileState.valid [], FileState.absent⟩
        ⟨false, FileState.absent, true, true⟩).2.tmp = FileState.valid DEFAULT_DATA :=
  ⟨rfl, rfl⟩

/-- C8: export_pdf makes a single look-ahead pagination decision.  The table
is one atomic block (its top minus its bottom is the whole estimated height,
and the source draws it with a single `table.drawOn` call, so it is never
split): it stays on the start page exactly when the estimated height
(row height 18 times header plus data rows) fits between the cursor after
the title and user lines and the bottom margin, and otherwise the whole
table moves to a continuation page with a "continued" header and the cursor
reset to a fixed top offset. -/
theorem export_pdf_places_table_atomically (user : UserInfo) (data : Ledger) :
    ((export_pdf_layout user data).continuation
      = decide ((18 : ℚ) * (pdf_num_table_rows data : ℚ)
          > A4_height - 80 - (pdf_user_lines user : ℚ) * 16 - 40 - 60))
    ∧ (export_pdf_layout user data).estTableHeight
      = 18 * (pdf_num_table_rows data : ℚ)
    ∧ (export_pdf_layout user data).tableTop
      = (if (18 : ℚ) * (pdf_num_table_rows data : ℚ)
            > A4_height - 80 - (pdf_user_lines user : ℚ) * 16 - 40 - 60
         then A4_height - 90
         else A4_height - 80 - (pdf_user_lines user : ℚ) * 16 - 40)
    ∧ (export_pdf_layout user data).continuedHeader
      = (if (18 : ℚ) * (pdf_num_table_rows data : ℚ)
            > A4_height - 80 - (pdf_user_lines user : ℚ) * 16 - 40 - 60
         then some "Workout Session Details (Continued)" else Option.none)
    ∧ (export_pdf_layout user data).tableTop - (export_pdf_layout user data).tableBottom
      = (export_pdf_layout user data).estTableHeight := by
  by_cases h : (18 : ℚ) * (pdf_num_table_rows data : ℚ)
      > A4_height - 80 - (pdf_user_lines user : ℚ) * 16 - 40 - 60
  · have hL : export_pdf_layout user data =
        { continuation := true,
          continuedHeader := some "Workout Session Details (Continued)",
          tableTop := A4_height - 90,
          tableBottom := A4_height - 90 - 18 * (pdf_num_table_rows data : ℚ),
          estTableHeight := 18 * (pdf_num_table_rows data : ℚ) } := by
      simp only [export_pdf_layout]
      rw [if_pos h]
    rw [hL]
    exact ⟨by simp [decide_eq_true h], rfl, by rw [if_pos h], by rw [if_pos h], by ring⟩
  · have hL : export_pdf_layout user data =
        { continuation := false,
          continuedHeader := Option.none,
          tableTop := A4_height - 80 - (pdf_user_lines user : ℚ) * 16 - 40,
          tableBottom := A4_height - 80 - (pdf_user_lines user : ℚ) * 16 - 40
            - 18 * (pdf_num_table_rows data : ℚ),
          estTableHeight := 18 * (pdf_num_table_rows data : ℚ) } := by
      simp only [export_pdf_layout]
      rw [if_neg h]
    rw [hL]
    exact ⟨by simp [decide_eq_false h], rfl, by rw [if_neg h], by rw [if_neg h], by ring⟩

lemma find?_appendEntry (d : Ledger) (k : String) (e : Entry) :
    (d.appendEntry k e).find? k = (d.find? k).map (fun l => l ++ [e]) := by
  induction d with
  | nil => rfl
  | cons p rest ih =>
      obtain ⟨a, b⟩ := p
      unfold Ledger.appendEntry Ledger.find? at ih ⊢
      simp only [List.map_cons]
      split_ifs with ha
      · subst ha
        simp [List.lookup]
      · have hb : (k == a) = false := beq_eq_false_iff_ne.mpr (fun hk => ha hk.symm)
        simp only [List.lookup, hb]
        exact ih

lemma log_workout_eq_missing (form : LogForm) (dataFS : DiskState Ledger)
    (userFS : FileState UserInfo) (io : IOFaults Ledger) (now today : String)
    (h : pyStrip (form.exercise.getD "") = "" ∨ pyStrip (form.duration.getD "") = "") :
    log_workout form dataFS userFS io now today
      = (LogResult.errMissingFields, dataFS, [LogAction.loadData, LogAction.loadUser]) := by
  unfold log_workout
  rw [if_pos h]

lemma log_workout_eq_badParse (form : LogForm) (dataFS : DiskState Ledger)
    (userFS : FileState UserInfo) (io : IOFaults Ledger) (now today : String)
    (hneq : ¬(pyStrip (form.exercise.getD "") = "" ∨ pyStrip (form.duration.getD "") = ""))
    (hp : pyParseInt (pyStrip (form.duration.getD "")) = Option.none) :
    log_workout form dataFS userFS io now today
      = (LogResult.errBadDuration, dataFS, [LogAction.loadData, LogAction.loadUser]) := by
  unfold log_workout
  rw [if_neg hneq, hp]

lemma log_workout_eq_nonpos (form : LogForm) (dataFS : DiskState Ledger)
    (userFS : FileState UserInfo) (io : IOFaults Ledger) (now today : String) (dur : ℤ)
    (hneq : ¬(pyStrip (form.exercise.getD "") = "" ∨ pyStrip (form.duration.getD "") = ""))
    (hp : pyParseInt (pyStrip (form.duration.getD "")) = some dur)
    (hd0 : dur ≤ 0) :
    log_workout form dataFS userFS io now today
      = (LogResult.errBadDuration, dataFS, [LogAction.loadData, LogAction.loadUser]) := by
  unfold log_workout
  rw [if_neg hneq, hp]
  dsimp only
  rw [if_pos hd0]

lemma log_workout_eq_invalidCat (form : LogForm) (dataFS : DiskState Ledger)
    (userFS : FileState UserInfo) (io : IOFaults Ledger) (now today : String) (dur : ℤ)
    (hneq : ¬(pyStrip (form.exercise.getD "") = "" ∨ pyStrip (form.duration.getD "") = ""))
    (hp : pyParseInt (pyStrip (form.duration.getD "")) = some dur)
    (hd0 : ¬ dur ≤ 0)
    (hcat : (load_data dataFS.canonical).containsKey (form.category.getD "Workout") = false) :
    log_workout form dataFS userFS io now today
      = (LogResult.errInvalidCategory, dataFS, [LogAction.loadData, LogAction.loadUser]) := by
  unfold log_workout
  rw [if_neg hneq, hp]
  dsimp only
  rw [if_neg hd0, if_pos (by simp [hcat])]

lemma log_workout_eq_ok (form : LogForm) (dataFS : DiskState Ledger)
    (userFS : FileState UserInfo) (io : IOFaults Ledger) (now today : String) (dur : ℤ)
    (hneq : ¬(pyStrip (form.exercise.getD "") = "" ∨ pyStrip (form.duration.getD "") = ""))
    (hp : pyParseInt (pyStrip (form.duration.getD "")) = some dur)
    (hd0 : ¬ dur ≤ 0)
    (hcat : (load_data dataFS.canonical).containsKey (form.category.getD "Workout") = true)
    (hw : io.writeFails = false) (hrep : io.replaceFails = false) :
    log_workout form dataFS userFS io now today
      = (LogResult.ok (form.category.getD "Workout")
          ⟨pyStrip (form.exercise.getD ""), dur,
           some (calc_calories (form.category.getD "Workout") dur (load_user_info userFS)),
           now, today⟩,
         ⟨FileState.valid ((load_data dataFS.canonical).appendEntry
            (form.category.getD "Workout")
            ⟨pyStrip (form.exercise.getD ""), dur,
             some (calc_calories (form.category.getD "Workout") dur (load_user_info userFS)),
             now, today⟩),
          FileState.absent⟩,
         [LogAction.loadData, LogAction.loadUser, LogAction.saveData]) := by
  have hsave : ∀ d2 : Ledger, save_data d2 dataFS io
      = (true, ⟨FileState.valid d2, FileState.absent⟩) := by
    intro d2
    unfold save_data atomicSave
    rw [hw, hrep]
    simp
  unfold log_workout
  rw [if_neg hneq, hp]
  dsimp only
  rw [if_neg hd0, if_neg (by simp [hcat]), hsave]
  dsimp only
  rw [if_pos rfl]

/-- Counterexample to C2 as stated: an append whose category ("Yoga") is not
a key of the loaded ledger is rejected with the invalid-category error; no
bucket is created, nothing is appended, and the backing file is untouched. -/
theorem log_workout_unknown_category_rejected :
    (log_workout ⟨some "Yoga", some "Stretch", some "10"⟩
        ⟨FileState.valid DEFAULT_DATA, FileState.absent⟩
        FileState.absent (IOFaults.none Ledger) "" "").1
      = LogResult.errInvalidCategory
    ∧ (log_workout ⟨some "Yoga", some "Stretch", some "10"⟩
        ⟨FileState.valid DEFAULT_DATA, FileState.absent⟩
        FileState.absent (IOFaults.none Ledger) "" "").2.1
      = ⟨FileState.valid DEFAULT_DATA, FileState.absent⟩ :=
  ⟨rfl, rfl⟩

/-- C2 (amended): the append operation accepts only categories that are
already keys of the loaded ledger.  A request whose category is not a key
is rejected (no save is performed, the backing file is unchanged, no bucket
is created); a request whose category is a key, with valid exercise and
duration and a fault-free save, appends exactly one entry at the end of
that category's bucket and persists the result. -/
theorem log_workout_category_policy (form : LogForm) (dataFS : DiskState Ledger)
    (userFS : FileState UserInfo) (io : IOFaults Ledger) (now today : String) :
    ((load_data dataFS.canonical).containsKey (form.category.getD "Workout") = false →
      (log_workout form dataFS userFS io now today).2.1 = dataFS
      ∧ LogAction.saveData ∉ (log_workout form dataFS userFS io now today).2.2
      ∧ ∀ c e, (log_workout form dataFS userFS io now today).1 ≠ LogResult.ok c e)
    ∧ (∀ dur : ℤ,
        pyStrip (form.exercise.getD "") ≠ "" →
        pyParseInt (pyStrip (form.duration.getD "")) = some dur →
        0 < dur →
        (load_data dataFS.canonical).containsKey (form.category.getD "Workout") = true →
        io.writeFails = false → io.replaceFails = false →
        (log_workout form dataFS userFS io now today).1
          = LogResult.ok (form.category.getD "Workout")
              ⟨pyStrip (form.exercise.getD ""), dur,
               some (calc_calories (form.category.getD "Workout") dur (load_user_info userFS)),
               now, today⟩
        ∧ (log_workout form dataFS userFS io now today).2.1.canonical
          = FileState.valid ((load_data dataFS.canonical).appendEntry
              (form.category.getD "Workout")
              ⟨pyStrip (form.exercise.getD ""), dur,
               some (calc_calories (form.category.getD "Workout") dur (load_user_info userFS)),
               now, today⟩)
        ∧ Ledger.find? ((load_data dataFS.canonical).appendEntry
              (form.category.getD "Workout")
              ⟨pyStrip (form.exercise.getD ""), dur,
               some (calc_calories (form.category.getD "Workout") dur (load_user_info userFS)),
               now, today⟩) (form.category.getD "Workout")
          = (Ledger.find? (load_data dataFS.canonical) (form.category.getD "Workout")).map
              (fun l => l ++ [⟨pyStrip (form.exercise.getD ""), dur,
                some (calc_calories (form.category.getD "Workout") dur (load_user_info userFS)),
                now, today⟩])) := by
  constructor
  · intro hcat
    by_cases hex : pyStrip (form.exercise.getD "") = ""
    · rw [log_workout_eq_missing form dataFS userFS io now today (Or.inl hex)]
      exact ⟨rfl, by simp, fun c e => by simp⟩
    · by_cases hds : pyStrip (form.duration.getD "") = ""
      · rw [log_workout_eq_missing form dataFS userFS io now today (Or.inr hds)]
        exact ⟨rfl, by simp, fun c e => by simp⟩
      · have hneq := not_or.mpr (And.intro hex hds)
        cases hp : pyParseInt (pyStrip (form.duration.getD "")) with
        | none =>
            rw [log_workout_eq_badParse form dataFS userFS io now today hneq hp]
            exact ⟨rfl, by simp, fun c e => by simp⟩
        | some dur =>
            by_cases hd0 : dur ≤ 0
            · rw [log_workout_eq_nonpos form dataFS userFS io now today dur hneq hp hd0]
              exact ⟨rfl, by simp, fun c e => by simp⟩
            · rw [log_workout_eq_invalidCat form dataFS userFS io now today dur hneq hp hd0 hcat]
              exact ⟨rfl, by simp, fun c e => by simp⟩
  · intro dur hex hdur hpos hcat hw hrep
    have hds : pyStrip (form.duration.getD "") ≠ "" := by
      intro h0
      rw [h0] at hdur
      simp [pyParseInt, parseDigits?] at hdur
    rw [log_workout_eq_ok form dataFS userFS io now today dur
      (not_or.mpr (And.intro hex hds)) hdur (not_le.mpr hpos) hcat hw hrep]
    exact ⟨rfl, rfl, find?_appendEntry _ _ _⟩

/-- Witness for C2 (amended) at concrete inputs: the unknown category "Yoga"
is rejected with the ledger untouched; the known category "Workout" accepts
and appends. -/
theorem log_workout_category_policy_witness :
    (load_data (FileState.valid DEFAULT_DATA)).containsKey "Yoga" = false
    ∧ (log_workout ⟨some "Yoga", some "Stretch", some "10"⟩
        ⟨FileState.valid DEFAULT_DATA, FileState.absent⟩
        FileState.absent (IOFaults.none Ledger) "" "").2.1
        = ⟨FileState.valid DEFAULT_DATA, FileState.absent⟩
    ∧ (log_workout ⟨some "Workout", some "Push-ups", some "10"⟩
        ⟨FileState.valid DEFAULT_DATA, FileState.absent⟩
        FileState.absent (IOFaults.none Ledger) "t" "d").1
        = LogResult.ok "Workout"
            ⟨"Push-ups", 10, some (calc_calories "Workout" 10 DEFAULT_USER_INFO), "t", "d"⟩ := by
  refine ⟨by decide, ?_, ?_⟩
  · exact ((log_workout_category_policy ⟨some "Yoga", some "Stretch", some "10"⟩
      ⟨FileState.valid DEFAULT_DATA, FileState.absent⟩
      FileState.absent (IOFaults.none Ledger) "" "").1 (by decide)).1
  · exact ((log_workout_category_policy ⟨some "Workout", some "Push-ups", some "10"⟩
      ⟨FileState.valid DEFAULT_DATA, FileState.absent⟩
      FileState.absent (IOFaults.none Ledger) "t" "d").2 10
      (by decide) (by decide) (by decide) (by decide) rfl rfl).1

/-- Counterexample to C5 as stated: on a request with a blank exercise name
the handler does reject without saving, but only after `load_data` and
`load_user_info` have already run (src/app.py lines 225-226 precede all
validation), so "rejected before any load ... is attempted" is false: the
performed-operations trace of the rejected request contains both loads. -/
theorem log_workout_loads_before_validation :
    (log_workout ⟨some "Workout", some "", some "10"⟩
        ⟨FileState.valid DEFAULT_DATA, FileState.absent⟩
        FileState.absent (IOFaults.none Ledger) "" "").1 = LogResult.errMissingFields
    ∧ LogAction.loadData ∈ (log_workout ⟨some "Workout", some "", some "10"⟩
        ⟨FileState.valid DEFAULT_DATA, FileState.absent⟩
        FileState.absent (IOFaults.none Ledger) "" "").2.2
    ∧ LogAction.loadUser ∈ (log_workout ⟨some "Workout", some "", some "10"⟩
        ⟨FileState.valid DEFAULT_DATA, FileState.absent⟩
        FileState.absent (IOFaults.none Ledger) "" "").2.2 :=
  ⟨rfl, by decide, by decide⟩

/-- C5 (amended): an append request with a blank exercise name, a
non-integer duration, or a duration at most zero is rejected before any
save is attempted: the handler returns a validation error, the backing
data file is untouched (so the persisted entry count is unchanged) and the
trace contains no save - although both backing documents are loaded before
validation runs. -/
theorem log_workout_invalid_rejected_without_save (form : LogForm)
    (dataFS : DiskState Ledger) (userFS : FileState UserInfo)
    (io : IOFaults Ledger) (now today : String)
    (h : pyStrip (form.exercise.getD "") = ""
       ∨ pyStrip (form.duration.getD "") = ""
       ∨ pyParseInt (pyStrip (form.duration.getD "")) = Option.none
       ∨ (∃ dur : ℤ, pyParseInt (pyStrip (form.duration.getD "")) = some dur ∧ dur ≤ 0)) :
    ((log_workout form dataFS userFS io now today).1 = LogResult.errMissingFields
      ∨ (log_workout form dataFS userFS io now today).1 = LogResult.errBadDuration)
    ∧ (log_workout form dataFS userFS io now today).2.1 = dataFS
    ∧ LogAction.saveData ∉ (log_workout form dataFS userFS io now today).2.2
    ∧ Ledger.countEntries (load_data (log_workout form dataFS userFS io now today).2.1.canonical)
      = Ledger.countEntries (load_data dataFS.canonical) := by
  by_cases hex : pyStrip (form.exercise.getD "") = ""
  · rw [log_workout_eq_missing form dataFS userFS io now today (Or.inl hex)]
    exact ⟨Or.inl rfl, rfl, by simp, rfl⟩
  · by_cases hds : pyStrip (form.duration.getD "") = ""
    · rw [log_workout_eq_missing form dataFS userFS io now today (Or.inr hds)]
      exact ⟨Or.inl rfl, rfl, by simp, rfl⟩
    · have hneq := not_or.mpr (And.intro hex hds)
      rcases h with h | h | h | ⟨dur, hp, hd0⟩
      · exact absurd h hex
      · exact absurd h hds
      · rw [log_workout_eq_badParse form dataFS userFS io now today hneq h]
        exact ⟨Or.inr rfl, rfl, by simp, rfl⟩
      · rw [log_workout_eq_nonpos form dataFS userFS io now today dur hneq hp hd0]
        exact ⟨Or.inr rfl, rfl, by simp, rfl⟩

/-- Witness for C5 (amended) at the concrete rejected duration "0". -/
theorem log_workout_invalid_rejected_without_save_witness :
    ((log_workout ⟨some "Workout", some "Push-ups", some "0"⟩
        ⟨FileState.valid DEFAULT_DATA, FileState.absent⟩
        FileState.absent (IOFaults.none Ledger) "" "").1 = LogResult.errMissingFields
      ∨ (log_workout ⟨some "Workout", some "Push-ups", some "0"⟩
        ⟨FileState.valid DEFAULT_DATA, FileState.absent⟩
        FileState.absent (IOFaults.none Ledger) "" "").1 = LogResult.errBadDuration)
    ∧ (log_workout ⟨some "Workout", some "Push-ups", some "0"⟩
        ⟨FileState.valid DEFAULT_DATA, FileState.absent⟩
        FileState.absent (IOFaults.none Ledger) "" "").2.1
      = ⟨FileState.valid DEFAULT_DATA, FileState.absent⟩
    ∧ LogAction.saveData ∉ (log_workout ⟨some "Workout", some "Push-ups", some "0"⟩
        ⟨FileState.valid DEFAULT_DATA, FileState.absent⟩
        FileState.absent (IOFaults.none Ledger) "" "").2.2
    ∧ Ledger.countEntries (load_data (log_workout ⟨some "Workout", some "Push-ups", some "0"⟩
        ⟨FileState.valid DEFAULT_DATA, FileState.absent⟩
        FileState.absent (IOFaults.none Ledger) "" "").2.1.canonical)
      = Ledger.countEntries (load_data (FileState.valid DEFAULT_DATA)) :=
  log_workout_invalid_rejected_without_save
    ⟨some "Workout", some "Push-ups", some "0"⟩
    ⟨FileState.valid DEFAULT_DATA, FileState.absent⟩
    FileState.absent (IOFaults.none Ledger) "" ""
    (Or.inr (Or.inr (Or.inr ⟨0, by decide, by decide⟩)))

/-- C1 (code bug): src/app.py calls `load_data` (line 225) outside
DATA_LOCK and holds the lock only for the append and save (lines 251-253),
so the two-thread interleaving "A loads, B loads, A commits, B commits" is
permitted by the lock and loses A's entry: starting from the default empty
ledger (0 entries), after both appends complete the persisted ledger holds
1 entry, not 0 + 2 as the claim requires.  A fully serialized schedule of
the same two appends does yield 2 entries, so the loss is caused by the
interleaving alone. -/
theorem log_workout_lost_update_interleaving :
    Ledger.countEntries (load_data (FileState.valid DEFAULT_DATA)) = 0
    ∧ (runSchedule "Workout" ⟨"Push-ups", 10, Option.none, "", ""⟩
        ⟨"Squats", 5, Option.none, "", ""⟩ [false, true, false, true]
        ⟨FileState.valid DEFAULT_DATA, ThreadPC.ready, ThreadPC.ready⟩).t1
      = ThreadPC.finished
    ∧ (runSchedule "Workout" ⟨"Push-ups", 10, Option.none, "", ""⟩
        ⟨"Squats", 5, Option.none, "", ""⟩ [false, true, false, true]
        ⟨FileState.valid DEFAULT_DATA, ThreadPC.ready, ThreadPC.ready⟩).t2
      = ThreadPC.finished
    ∧ Ledger.countEntries (load_data (runSchedule "Workout"
        ⟨"Push-ups", 10, Option.none, "", ""⟩
        ⟨"Squats", 5, Option.none, "", ""⟩ [false, true, false, true]
        ⟨FileState.valid DEFAULT_DATA, ThreadPC.ready, ThreadPC.ready⟩).file)
      = 1
    ∧ Ledger.countEntries (load_data (runSchedule "Workout"
        ⟨"Push-ups", 10, Option.none, "", ""⟩
        ⟨"Squats", 5, Option.none, "", ""⟩ [false, false, true, true]
        ⟨FileState.valid DEFAULT_DATA, ThreadPC.ready, ThreadPC.ready⟩).file)
      = 2 := by
  refine ⟨by decide, by decide, by decide, by decide, by decide⟩

/-- C7: whenever _validate_user_form accepts a form, the derived metrics
stored in the cleaned profile satisfy bmi = weight / (height/100)^2 and the
Mifflin-St Jeor bmr (+5 for gender M, -161 for gender F), and the stored
gender is one of M / F. -/
theorem validate_user_form_derived_metrics (form : UserForm) (errs : List String)
    (rec : CleanedUser) (h : validate_user_form form = (errs, some rec)) :
    rec.bmi = rec.weight / ((rec.height / 100) ^ 2)
    ∧ (rec.gender = "M" ∨ rec.gender = "F")
    ∧ rec.bmr = (if rec.gender = "M"
        then 10 * rec.weight + (25/4) * rec.height - 5 * (rec.age : ℚ) + 5
        else 10 * rec.weight + (25/4) * rec.height - 5 * (rec.age : ℚ) - 161) := by
  unfold validate_user_form at h
  dsimp only at h
  generalize hN : (if (cleaner (form.name.getD "")).length > 100
      then ["Name too long (>100)."] else ([] : List String)) = nameErr at h
  generalize hR : (if (cleaner (form.regn_id.getD "")).length > 50
      then ["Regn-ID too long (>50)."] else ([] : List String)) = regnErr at h
  generalize hG : (if pyUpper (cleaner (form.gender.getD "")) ≠ "M"
        ∧ pyUpper (cleaner (form.gender.getD "")) ≠ "F"
      then ["Gender must be M or F."] else ([] : List String)) = genderErr at h
  split at h
  · simp at h
  · next hcond =>
      injection h with h1 h2
      injection h2 with h3
      subst h3
      refine ⟨rfl, ?_, rfl⟩
      have hER := not_not.mp hcond
      simp only [List.append_eq_nil] at hER
      have hgE : genderErr = [] := hER.1.1.2
      rw [← hG] at hgE
      by_cases hcnd : pyUpper (cleaner (form.gender.getD "")) ≠ "M"
          ∧ pyUpper (cleaner (form.gender.getD "")) ≠ "F"
      · rw [if_pos hcnd] at hgE
        exact absurd hgE (by simp)
      · rcases not_and_or.mp hcnd with hgm | hgf
        · exact Or.inl (not_not.mp hgm)
        · exact Or.inr (not_not.mp hgf)

/-- The cleaned record _validate_user_form produces for the spec's example
form (weight 60 kg, height 165 cm, age 28, gender F). -/
def exampleCleaned : CleanedUser :=
  ⟨"Asha", "R1", 28, "F", 165, 60, 60 / ((165 / 100) ^ 2),
   10 * 60 + (25/4) * 165 - 5 * ((28 : ℤ) : ℚ) - 161, 2000⟩

/-- Witness for C7 at the spec's fixed-point example: weight 60, height 165,
age 28, gender F is accepted, the stored metrics obey the formulas, and the
stored bmr is exactly 1330.25 = 5321/4. -/
theorem validate_user_form_derived_metrics_witness :
    validate_user_form ⟨some "Asha", some "R1", some "28", some "f", some "165", some "60"⟩
      = ([], some exampleCleaned)
    ∧ exampleCleaned.bmi = exampleCleaned.weight / ((exampleCleaned.height / 100) ^ 2)
    ∧ (exampleCleaned.gender = "M" ∨ exampleCleaned.gender = "F")
    ∧ exampleCleaned.bmr = (if exampleCleaned.gender = "M"
        then 10 * exampleCleaned.weight + (25/4) * exampleCleaned.height
          - 5 * (exampleCleaned.age : ℚ) + 5
        else 10 * exampleCleaned.weight + (25/4) * exampleCleaned.height
          - 5 * (exampleCleaned.age : ℚ) - 161)
    ∧ exampleCleaned.bmr = 5321 / 4 := by
  have h : validate_user_form ⟨some "Asha", some "R1", some "28", some "f", some "165", some "60"⟩
      = ([], some exampleCleaned) := rfl
  have hm := validate_user_form_derived_metrics _ _ _ h
  refine ⟨h, hm.1, hm.2.1, hm.2.2, ?_⟩
  show (10 * (60 : ℚ) + (25/4) * 165 - 5 * ((28 : ℤ) : ℚ) - 161) = 5321 / 4
  norm_num

lemma fst_ite_pair {α β : Type} (c : Prop) [Decidable c] (E : α) (x y : β) :
    (if c then (E, x) else (E, y)).1 = E := by
  split <;> rfl

/-- C9: _validate_user_form strips leading/trailing whitespace and deletes
ASCII control characters (0x00-0x1f and 0x7f) from name and regn_id before
storing them, rejects a cleaned name longer than 100 characters and a
cleaned regn_id longer than 50 (error recorded, empty cleaned-data record
returned), and a cleaned record is only ever returned together with an
empty error list. -/
theorem validate_user_form_sanitization (form : UserForm) :
    (∀ errs rec, validate_user_form form = (errs, some rec) →
        errs = []
        ∧ rec.name = cleaner (form.name.getD "")
        ∧ rec.regn_id = cleaner (form.regn_id.getD ""))
    ∧ (∀ s : String, cleaner s = ⟨(pyStrip s).toList.filter (fun c => !isCtlChar c)⟩)
    ∧ ((cleaner (form.name.getD "")).length > 100 →
        "Name too long (>100)." ∈ (validate_user_form form).1
        ∧ (validate_user_form form).2 = Option.none)
    ∧ ((cleaner (form.regn_id.getD "")).length > 50 →
        "Regn-ID too long (>50)." ∈ (validate_user_form form).1
        ∧ (validate_user_form form).2 = Option.none) := by
  refine ⟨?_, fun s => rfl, ?_, ?_⟩
  · intro errs rec h
    unfold validate_user_form at h
    dsimp only at h
    generalize hN : (if (cleaner (form.name.getD "")).length > 100
        then ["Name too long (>100)."] else ([] : List String)) = nameErr at h
    generalize hR : (if (cleaner (form.regn_id.getD "")).length > 50
        then ["Regn-ID too long (>50)."] else ([] : List String)) = regnErr at h
    generalize hG : (if pyUpper (cleaner (form.gender.getD "")) ≠ "M"
          ∧ pyUpper (cleaner (form.gender.getD "")) ≠ "F"
        then ["Gender must be M or F."] else ([] : List String)) = genderErr at h
    split at h
    · simp at h
    · next hcond =>
        injection h with h1 h2
        injection h2 with h3
        subst h3
        exact ⟨h1.symm.trans (not_not.mp hcond), rfl, rfl⟩
  · intro hlen
    unfold validate_user_form
    dsimp only
    rw [if_pos hlen]
    refine ⟨?_, ?_⟩
    · rw [fst_ite_pair]
      simp
    · rw [if_pos (by simp : (((numericFields (pyStrip (form.age.getD ""))
          (pyStrip (form.height.getD "")) (pyStrip (form.weight.getD ""))).1
          ++ (if pyUpper (cleaner (form.gender.getD "")) ≠ "M"
                ∧ pyUpper (cleaner (form.gender.getD "")) ≠ "F"
              then ["Gender must be M or F."] else [])
          ++ ["Name too long (>100)."])
          ++ (if (cleaner (form.regn_id.getD "")).length > 50
              then ["Regn-ID too long (>50)."] else [])) ≠ [])]
  · intro hlen
    unfold validate_user_form
    dsimp only
    rw [if_pos hlen]
    refine ⟨?_, ?_⟩
    · rw [fst_ite_pair]
      simp
    · rw [if_pos (by simp : (((numericFields (pyStrip (form.age.getD ""))
          (pyStrip (form.height.getD "")) (pyStrip (form.weight.getD ""))).1
          ++ (if pyUpper (cleaner (form.gender.getD "")) ≠ "M"
                ∧ pyUpper (cleaner (form.gender.getD "")) ≠ "F"
              then ["Gender must be M or F."] else [])
          ++ (if (cleaner (form.name.getD "")).length > 100
              then ["Name too long (>100)."] else []))
          ++ ["Regn-ID too long (>50)."]) ≠ [])]

/-- A 101-character name, over the 100-character limit. -/
def longName : String :=
  ⟨List.replicate 101 'a'⟩

/-- Witness for C9: a form whose name cleans to 101 characters is rejected
with the name-length error and the empty cleaned-data record, and a valid
form's record carries the cleaned name with no errors. -/
theorem validate_user_form_sanitization_witness :
    (cleaner longName).length > 100
    ∧ "Name too long (>100)." ∈ (validate_user_form
        ⟨some longName, some "R1", some "28", some "f", some "165", some "60"⟩).1
    ∧ (validate_user_form
        ⟨some longName, some "R1", some "28", some "f", some "165", some "60"⟩).2
      = Option.none
    ∧ exampleCleaned.name = cleaner " Asha\x01" := by
  have hlen : (cleaner longName).length > 100 := by decide
  have hmem := (validate_user_form_sanitization
    ⟨some longName, some "R1", some "28", some "f", some "165", some "60"⟩).2.2.1 hlen
  refine ⟨hlen, hmem.1, hmem.2, ?_⟩
  have h : validate_user_form ⟨some " Asha\x01", some "R1", some "28", some "f", some "165", some "60"⟩
      = ([], some exampleCleaned) := rfl
  exact ((validate_user_form_sanitization
    ⟨some " Asha\x01", some "R1", some "28", some "f", some "165", some "60"⟩).1 _ _ h).2.1

end Aceest
